import Mathlib

set_option maxRecDepth 100000

/-!
Verification of the phishing-email analyzer (`phishing_rag.py`).

The Python source is shallowly embedded below:

* `simple_similarity`   — the word-token Jaccard similarity (floats modelled by `ℚ`;
  `mkRat` is used instead of `/` so that all definitions reduce in the kernel,
  and bridge lemmas relate them to ordinary rational division);
* `analyzeVerdict` / `analyze_email_local` — the indicator scan, similarity pass,
  risk tier, recommended actions and rendered report of `analyze_email_local`;
* `normalize_history`, `save_history` serialization, `load_history` — the
  persistent chat history (file IO abstracted by an explicit `FileState`);
* `queryGeneratorEvents` — the event trace (emissions and saves) of one
  invocation of the streaming generator `query_generator`.
-/

/-- A word character in the sense of the Python regex `\w` (ASCII model):
letters, digits, or underscore. -/
def isWordChar (c : Char) : Bool := c.isAlphanum || c == '_'

/-- Splits a character list into the maximal runs of word characters, in order;
`cur` is the (reversed) run currently being accumulated.  This models
`re.findall(r"\w+", s)`. -/
def wordRunsAux : List Char → List Char → List (List Char)
  | [], cur => if cur.isEmpty then [] else [cur.reverse]
  | c :: cs, cur =>
    if isWordChar c then wordRunsAux cs (c :: cur)
    else if cur.isEmpty then wordRunsAux cs []
    else cur.reverse :: wordRunsAux cs []

/-- `re.findall(r"\w+", s)` : the list of maximal word-character runs of `s`. -/
def pyFindallWords (s : String) : List String :=
  (wordRunsAux s.data []).map fun l => String.mk l

/-- `s.lower()` (ASCII model, matching the `A`–`Z` range; defined through
`List.map` so that it reduces in the kernel). -/
def lowerStr (s : String) : String := String.mk (s.data.map Char.toLower)

/-- `set(re.findall(r"\w+", s.lower()))` : the set of lower-cased word tokens. -/
def tokenSet (s : String) : Finset String :=
  (pyFindallWords (lowerStr s)).toFinset

/-- `simple_similarity(a, b)` from the source:
token-set Jaccard index `len(wa & wb) / max(1, len(wa | wb))`, and `0.0` when
either token set is empty.  `mkRat` builds the exact rational quotient. -/
def simple_similarity (a b : String) : ℚ :=
  let wa := tokenSet a
  let wb := tokenSet b
  if wa = ∅ ∨ wb = ∅ then 0
  else mkRat ((wa ∩ wb).card : ℤ) (Nat.max 1 (wa ∪ wb).card)

/-- `containsSub t pat` holds when `pat` occurs as a contiguous substring of `t`
(`re.search` for a literal pattern). -/
def containsSub (t pat : List Char) : Bool :=
  (List.range (t.length + 1)).any fun i => (t.drop i).take pat.length == pat

/-- `boundedAt t w i` : the literal word `w` occurs in `t` at position `i` with a
word boundary (`\b`) on both sides.  All words used below begin and end with a
word character, so `\b` means: the neighbouring character (when it exists) is
not a word character. -/
def boundedAt (t w : List Char) (i : Nat) : Bool :=
  ((t.drop i).take w.length == w)
  && (i == 0 || !isWordChar (t.getD (i - 1) ' '))
  && !isWordChar (t.getD (i + w.length) ' ')

/-- `re.search` for `\b(w₁|w₂|…)\b` : some word of the list occurs somewhere in
`t` with word boundaries on both sides. -/
def hasBoundedWord (t : List Char) (ws : List String) : Bool :=
  (List.range (t.length + 1)).any fun i => ws.any fun w => boundedAt t w.data i

/-- Detector `patterns["link"] = https?://|www\.` on the lower-cased text. -/
def detLink (t : List Char) : Bool :=
  containsSub t "http://".data || containsSub t "https://".data || containsSub t "www.".data

/-- The alternatives of `patterns["suspicious_words"]`. -/
def suspiciousWords : List String :=
  ["verify", "confirm", "urgent", "suspend", "suspended", "password", "bank",
   "account", "billing", "verify your", "click here", "update", "login", "wire transfer"]

/-- Detector `patterns["suspicious_words"]` (word-bounded alternation). -/
def detWords (t : List Char) : Bool := hasBoundedWord t suspiciousWords

/-- First half of `patterns["amounts"]`: `\b\d{3,}\b` — a maximal run of at
least three digits delimited by word boundaries. -/
def hasDigitRun (t : List Char) : Bool :=
  (List.range (t.length + 1)).any fun i =>
    (List.range (t.length + 1)).any fun j =>
      decide (i + 3 ≤ j) && decide (j ≤ t.length)
      && ((t.drop i).take (j - i)).all (fun c => c.isDigit)
      && (i == 0 || !isWordChar (t.getD (i - 1) ' '))
      && !isWordChar (t.getD j ' ')

/-- Second half of `patterns["amounts"]`: `\$\d+` — a dollar sign immediately
followed by a digit. -/
def hasDollarAmount (t : List Char) : Bool :=
  (List.range t.length).any fun i =>
    (t.getD i ' ' == '$') && (t.getD (i + 1) ' ').isDigit

/-- Detector `patterns["amounts"] = \b\d{3,}\b|\$\d+`. -/
def detAmount (t : List Char) : Bool := hasDigitRun t || hasDollarAmount t

/-- Detector `patterns["attachment"]`. -/
def detAttach (t : List Char) : Bool :=
  hasBoundedWord t ["attachment", "attached", "pdf", "docx", "invoice"]

/-- Detector `patterns["greeting_generic"]`. -/
def detGreet (t : List Char) : Bool :=
  hasBoundedWord t ["dear user", "dear customer", "valued customer"]

/-- `text.lower()` as a character list — every detector is run on this. -/
def lowerChars (s : String) : List Char := (lowerStr s).data

/-- An `Example` row of the CSV index: `{subject, body, indicator}`
(the id is the key of the mapping). -/
structure EmailExample where
  subject : String
  body : String
  indicator : String
deriving DecidableEq

/-- The three canonical rows seeded by `ensure_csv_exists` and parsed by
`load_csv` (fields are already trimmed).  Insertion order is `E001, E002, E003`,
which is also the iteration order of the Python dict `email_index`. -/
def defaultIndex : List (String × EmailExample) :=
  [("E001", ⟨"Your account has been suspended",
             "Click this link to restore your account: http://malicious.example/login",
             "Suspicious link"⟩),
   ("E002", ⟨"Urgent: Verify your payment info",
             "Provide your bank details now or we\x27ll close your account",
             "Sensitive info request"⟩),
   ("E003", ⟨"Congratulations! You won a gift card",
             "Claim your prize by clicking here",
             "Unsolicited reward"⟩)]

/-- The `indicators` list built by the five conditional appends, in source
order: link, suspicious words, amounts, attachment, generic greeting. -/
def indicatorsOf (fLink fWords fAmount fAttach fGreet : Bool) : List String :=
  (if fLink then ["Contains external link(s)"] else [])
  ++ (if fWords then ["Contains suspicious action words"] else [])
  ++ (if fAmount then ["Mentions amounts or unusual numbers"] else [])
  ++ (if fAttach then ["Mentions an attachment"] else [])
  ++ (if fGreet then ["Generic greeting"] else [])

/-- The indicator part of the score: the same five conditionals with weights
`3, 2, 1, 1, 1`. -/
def indicatorScoreOf (fLink fWords fAmount fAttach fGreet : Bool) : ℕ :=
  (if fLink then 3 else 0) + (if fWords then 2 else 0) + (if fAmount then 1 else 0)
  + (if fAttach then 1 else 0) + (if fGreet then 1 else 0)

/-- The indicator score of a text: the running `score` of
`analyze_email_local` just before the similarity pass. -/
def indicatorScore (text : String) : ℕ :=
  indicatorScoreOf (detLink (lowerChars text)) (detWords (lowerChars text))
    (detAmount (lowerChars text)) (detAttach (lowerChars text)) (detGreet (lowerChars text))

/-- The similarity keep-threshold `0.15` (as the exact rational `3/20`). -/
def simThreshold : ℚ := mkRat 3 20

/-- `int(sim * 3)` from the loop body: `sim` is non-negative, so Python's
truncation towards zero is the floor of `3 · sim`. -/
def simContribution (q : ℚ) : ℕ := (mkRat (3 * q.num) q.den).floor.toNat

/-- The `sims` list: for every `(eid, v)` of the index snapshot (in insertion
order), the similarity of the input with `f"{v['subject']} {v['body']}"`. -/
def simsOf (text : String) (idx : List (String × EmailExample)) :
    List (String × ℚ × EmailExample) :=
  idx.map fun p => (p.1, simple_similarity text (p.2.subject ++ " " ++ p.2.body), p.2)

/-- Ordering for `sorted(sims, key=lambda x: x[1], reverse=True)`:
`x` may come before `y` when `y`'s similarity is at most `x`'s.  A stable sort
with this relation is exactly Python's stable descending sort by similarity. -/
def simRel (x y : String × ℚ × EmailExample) : Prop := y.2.1 ≤ x.2.1

instance : DecidableRel simRel := fun x y => inferInstanceAs (Decidable (y.2.1 ≤ x.2.1))

/-- One iteration of the similarity loop: a kept match (similarity strictly
above the threshold) is appended to `similar_msgs` — recorded structurally as
`(eid, sim, indicator)` — and adds `int(sim * 3)` to the score. -/
def simStep (acc : List (String × ℚ × String) × ℕ) (m : String × ℚ × EmailExample) :
    List (String × ℚ × String) × ℕ :=
  if simThreshold < m.2.1 then
    (acc.1 ++ [(m.1, m.2.1, m.2.2.indicator)], acc.2 + simContribution m.2.1)
  else acc

/-- The risk tier derived from the final score:
`score >= 6 → HIGH`, `score >= 3 → MEDIUM`, else `LOW`. -/
def riskOf (score : ℕ) : String :=
  if score ≥ 6 then "HIGH" else if score ≥ 3 then "MEDIUM" else "LOW"

/-- The `actions` list: one fixed advisory per action-bearing indicator present
in `indicators` (checked by string membership, as in the source), and the
generic advisory when none was appended. -/
def actionsOf (indicators : List String) : List String :=
  let acts :=
    (if indicators.contains "Contains external link(s)" then
      ["Do not click links. Inspect carefully."] else [])
    ++ (if indicators.contains "Contains suspicious action words" then
      ["Do not provide sensitive info. Verify sender."] else [])
    ++ (if indicators.contains "Mentions an attachment" then
      ["Do not open attachments. Scan safely."] else [])
    ++ (if indicators.contains "Generic greeting" then
      ["Generic greeting may indicate phishing."] else [])
  if acts.isEmpty then ["No immediate danger detected; stay cautious."] else acts

/-- The structured result of `analyze_email_local` (everything the function
computes before rendering the report). -/
structure AnalyzeResult where
  indicators : List String
  similar : List (String × ℚ × String)
  score : ℕ
  risk : String
  actions : List String
deriving DecidableEq

/-- The computation of `analyze_email_local(email_text, top_k_context)` up to
rendering: detector scan, similarity pass over the index snapshot (stable
descending sort, truncation to the top `top_k`, threshold filter/score
updates), risk tier and recommended actions. -/
def analyzeVerdict (email_text : String) (idx : List (String × EmailExample))
    (top_k : ℕ) : AnalyzeResult :=
  let tl := lowerChars email_text
  let fLink := detLink tl
  let fWords := detWords tl
  let fAmount := detAmount tl
  let fAttach := detAttach tl
  let fGreet := detGreet tl
  let indicators := indicatorsOf fLink fWords fAmount fAttach fGreet
  let score0 := indicatorScoreOf fLink fWords fAmount fAttach fGreet
  let sims_sorted := ((simsOf email_text idx).insertionSort simRel).take top_k
  let folded := sims_sorted.foldl simStep ([], score0)
  { indicators := indicators
    similar := folded.1
    score := folded.2
    risk := riskOf folded.2
    actions := actionsOf indicators }

/-- One item of a raw history payload, covering the shapes `normalize_history`
distinguishes: a `{role, content}` chat message, a pair-like record (list/tuple
of strings), a `{user, assistant}` record, a `{question, answer}` record, or
anything else (skipped by the mixed-shape loop). -/
inductive RawItem where
  | msg (role content : String)
  | pair (items : List String)
  | record (user assistant : String)
  | qa (question answer : String)
  | other
deriving DecidableEq

/-- Whether an item is a `{role, content}` message (the `all(...)` test that
selects the flat role/content branch of `normalize_history`). -/
def isRoleMsg : RawItem → Bool
  | .msg _ _ => true
  | _ => false

/-- The flat role/content folding loop of `normalize_history`: a `user` message
opens a pending turn (`pair = [text, ""]`), the next `assistant`/`system`
message closes and appends it; other roles are ignored; an unterminated
trailing user message is dropped. -/
def rolePairs : List RawItem → Option String → List (String × String)
  | [], _ => []
  | .msg role content :: rest, pending =>
    if role == "user" then rolePairs rest (some content)
    else if role == "assistant" || role == "system" then
      match pending with
      | some u => (u, content) :: rolePairs rest none
      | none => rolePairs rest none
    else rolePairs rest pending
  | _ :: rest, pending => rolePairs rest pending

/-- The per-item conversion of the mixed-shape loop of `normalize_history`:
pair-like items of length ≥ 2 become `(item[0], item[1])`, `{user, assistant}`
and `{question, answer}` records become the corresponding turn, everything else
is skipped. -/
def mixedItem : RawItem → Option (String × String)
  | .pair xs => if 2 ≤ xs.length then some (xs.getD 0 "", xs.getD 1 "") else none
  | .record u a => some (u, a)
  | .qa q a => some (q, a)
  | _ => none

/-- `normalize_history(raw)`: empty input gives `[]`; a list made entirely of
`{role, content}` messages is folded into turns by `rolePairs`; otherwise each
item is converted (or skipped) by `mixedItem`. -/
def normalize_history (raw : List RawItem) : List (String × String) :=
  if raw.isEmpty then []
  else if raw.all isRoleMsg then rolePairs raw none
  else raw.filterMap mixedItem

/-- The serialization performed by `save_history`: each turn is written as a
`{"user": h[0], "assistant": h[1]}` record, which reads back as a
`{user, assistant}` record. -/
def serialize_history (h : List (String × String)) : List RawItem :=
  h.map fun t => RawItem.record t.1 t.2

/-- The state of the history backing file as `load_history` can encounter it:
absent, present but unparseable (`json.load` raises), or parsed content. -/
inductive FileState where
  | absent
  | malformed
  | content (raw : List RawItem)

/-- `load_history()`: an absent file yields `[]`; a parse failure is caught,
logged and yields `[]`; parsed content is normalized defensively. -/
def load_history : FileState → List (String × String)
  | .absent => []
  | .malformed => []
  | .content raw => normalize_history raw

/-- Python's `f"{sim:.2f}"` on the (non-negative) similarity: rounding to two
decimal places, halves to even, on the exact rational value. -/
def fmt2 (q : ℚ) : String :=
  let s := mkRat (q.num * 100) q.den
  let fl := s.floor
  let t : ℤ := 2 * s.num - 2 * fl * (s.den : ℤ)
  let n : ℤ := if (s.den : ℤ) < t then fl + 1
    else if t < (s.den : ℤ) then fl
    else if fl % 2 = 0 then fl else fl + 1
  let np := n.toNat
  toString (np / 100) ++ "." ++
    (if np % 100 < 10 then "0" ++ toString (np % 100) else toString (np % 100))

/-- One line of the similar-examples section:
`f"{eid} (sim={sim:.2f}): {v.get('indicator','')}"`. -/
def simLine (m : String × ℚ × String) : String :=
  m.1 ++ " (sim=" ++ fmt2 m.2.1 ++ "): " ++ m.2.2

/-- The rendered multi-section report (`summary_lines` joined by newlines). -/
def renderSummary (r : AnalyzeResult) : String :=
  let header : List String :=
    ["📌 Phishing Analysis (Local Simulator)",
     "Risk level: **" ++ r.risk ++ "** (score=" ++ toString r.score ++ ")"]
  let indicatorLines : List String :=
    if r.indicators.isEmpty then ["\nDetected indicators: None obvious (heuristic scan)"]
    else "\nDetected indicators:" ::
      r.indicators.enum.map (fun p => "  " ++ toString (p.1 + 1) ++ ". " ++ p.2)
  let similarLines : List String :=
    if r.similar.isEmpty then []
    else "\nSimilar known examples from CSV:" :: r.similar.map (fun m => "  - " ++ simLine m)
  let actionLines : List String :=
    "\nRecommended actions:" ::
      r.actions.enum.map (fun p => "  " ++ toString (p.1 + 1) ++ ". " ++ p.2)
  let verdictLine : String :=
    if r.risk == "HIGH" then "\nVERDICT: Likely phishing. Do not interact."
    else if r.risk == "MEDIUM" then "\nVERDICT: Possibly phishing. Verify before interacting."
    else "\nVERDICT: Low immediate signs; stay cautious."
  String.intercalate "\n" (header ++ indicatorLines ++ similarLines ++ actionLines ++ [verdictLine])

/-- `analyze_email_local(email_text, top_k_context)` : the rendered report. -/
def analyze_email_local (email_text : String) (idx : List (String × EmailExample))
    (top_k_context : ℕ) : String :=
  renderSummary (analyzeVerdict email_text idx top_k_context)

/-- An observable event of one run of the generator `query_generator`:
a `yield history, history, ""` (recorded as `emit` of the history) or a call
to `save_history` (recorded as `save`). -/
inductive GenEvent where
  | emit (history : List (String × String))
  | save (history : List (String × String))
deriving DecidableEq

/-- The character-reveal loop: for each character, `typed += ch`,
`history[-1][1] = typed`, then a yield of the updated history. -/
def streamSteps (base : List (String × String)) (q : String) :
    List Char → String → List GenEvent
  | [], _ => []
  | c :: cs, typed =>
    GenEvent.emit (base ++ [(q, typed.push c)]) :: streamSteps base q cs (typed.push c)

/-- The event trace of one invocation of `query_generator(user_input,
chat_history)` with index snapshot `idx`: normalize the history, append the
pending turn and yield; reveal the report character by character, yielding
after each extension; then `save_history(history)` and one final yield (after
the loop, `typed` equals the whole report). -/
def queryGeneratorEvents (user_input : String) (chat_history : List RawItem)
    (idx : List (String × EmailExample)) : List GenEvent :=
  let base := normalize_history chat_history
  let answer := analyze_email_local user_input idx 5
  GenEvent.emit (base ++ [(user_input, "")]) ::
    (streamSteps base user_input answer.data "" ++
      [GenEvent.save (base ++ [(user_input, answer)]),
       GenEvent.emit (base ++ [(user_input, answer)])])

/-- The answer of the most recent turn in each emitted history, in emission
order. -/
def emittedAnswers (evs : List GenEvent) : List String :=
  evs.filterMap fun e =>
    match e with
    | .emit h => some (((h.getLast?).getD ("", "")).2)
    | .save _ => none

/-- The histories passed to `save_history`, in order. -/
def savedHistories (evs : List GenEvent) : List (List (String × String)) :=
  evs.filterMap fun e =>
    match e with
    | .save h => some h
    | .emit _ => none

/-- Specification-side view of one loop iteration: the match kept by the
threshold filter, as recorded in `similar_msgs`. -/
def keepFn (m : String × ℚ × EmailExample) : Option (String × ℚ × String) :=
  if simThreshold < m.2.1 then some (m.1, m.2.1, m.2.2.indicator) else none

/-- Specification-side view of one loop iteration: the score added for the
match (`int(sim * 3)` when kept, `0` otherwise). -/
def contribFn (m : String × ℚ × EmailExample) : ℕ :=
  if simThreshold < m.2.1 then simContribution m.2.1 else 0

/-- Specification-side recommended actions, directly from the fired detector
flags (amount-mention carries no action). -/
def actionsSpecOf (fLink fWords fAttach fGreet : Bool) : List String :=
  let acts :=
    (if fLink then ["Do not click links. Inspect carefully."] else [])
    ++ (if fWords then ["Do not provide sensitive info. Verify sender."] else [])
    ++ (if fAttach then ["Do not open attachments. Scan safely."] else [])
    ++ (if fGreet then ["Generic greeting may indicate phishing."] else [])
  if acts.isEmpty then ["No immediate danger detected; stay cautious."] else acts

/-- The successive values of `typed` during the reveal loop, starting from
`t` and pushing the characters of `l` one by one. -/
def pushStates (t : String) : List Char → List String
  | [] => []
  | c :: cs => (t.push c) :: pushStates (t.push c) cs

/-- The value of `typed` after the whole loop: all characters pushed. -/
def pushAll (t : String) (l : List Char) : String := l.foldl String.push t

lemma serialize_filterMap (h : List (String × String)) :
    (serialize_history h).filterMap mixedItem = h := by
  induction h with
  | nil => rfl
  | cons t ts ih =>
    simp only [serialize_history, List.map_cons, List.filterMap_cons, mixedItem] at *
    simp [ih]

lemma normalize_serialize (h : List (String × String)) :
    normalize_history (serialize_history h) = h := by
  cases h with
  | nil => rfl
  | cons t ts =>
    unfold normalize_history
    rw [if_neg (by simp [serialize_history]), if_neg (by simp [serialize_history, isRoleMsg])]
    exact serialize_filterMap (t :: ts)

/-- C8: normalizing, serializing to `{user, assistant}` records, and
normalizing again is the same as normalizing once, for every raw history. -/
theorem normalize_roundtrip (raw : List RawItem) :
    normalize_history (serialize_history (normalize_history raw)) = normalize_history raw :=
  normalize_serialize (normalize_history raw)

/-- C9: `load_history` cannot propagate an error: an absent backing file
yields the empty conversation, a file whose parse fails yields the empty
conversation (after logging), and parsed content is normalized. -/
theorem load_history_total :
    load_history FileState.absent = []
    ∧ load_history FileState.malformed = []
    ∧ ∀ raw, load_history (FileState.content raw) = normalize_history raw :=
  ⟨rfl, rfl, fun _ => rfl⟩

/-- C2: the risk tier is the fixed-threshold function `riskOf` of the final
score, `riskOf` implements `score ≥ 6 → HIGH`, `3 ≤ score < 6 → MEDIUM`,
otherwise `LOW`, and the boundary scores 2, 3, 5, 6 classify as stated. -/
theorem risk_tier_thresholds (text : String) (idx : List (String × EmailExample)) (s : ℕ) :
    (analyzeVerdict text idx 5).risk = riskOf (analyzeVerdict text idx 5).score
    ∧ (6 ≤ s → riskOf s = "HIGH")
    ∧ (3 ≤ s → s < 6 → riskOf s = "MEDIUM")
    ∧ (s < 3 → riskOf s = "LOW")
    ∧ riskOf 2 = "LOW" ∧ riskOf 3 = "MEDIUM" ∧ riskOf 5 = "MEDIUM" ∧ riskOf 6 = "HIGH" := by
  refine ⟨rfl, ?_, ?_, ?_, by decide, by decide, by decide, by decide⟩
  · intro h
    unfold riskOf
    rw [if_pos h]
  · intro h1 h2
    unfold riskOf
    rw [if_neg (by omega), if_pos h1]
  · intro h
    unfold riskOf
    rw [if_neg (by omega), if_neg (by omega)]

/-- Witness for C2 at concrete scores 7, 4 and 1. -/
theorem risk_tier_thresholds_witness :
    riskOf 7 = "HIGH" ∧ riskOf 4 = "MEDIUM" ∧ riskOf 1 = "LOW" :=
  ⟨(risk_tier_thresholds "" [] 7).2.1 (by decide),
   (risk_tier_thresholds "" [] 4).2.2.1 (by decide) (by decide),
   (risk_tier_thresholds "" [] 1).2.2.2.1 (by decide)⟩

lemma indicatorScoreOf_mono :
    ∀ a b c d e a' b' c' d' e' : Bool,
      (a = true → a' = true) → (b = true → b' = true) → (c = true → c' = true) →
      (d = true → d' = true) → (e = true → e' = true) →
      indicatorScoreOf a b c d e ≤ indicatorScoreOf a' b' c' d' e' := by decide

lemma analyzeVerdict_nil_score (text : String) :
    (analyzeVerdict text [] 5).score = indicatorScore text := rfl

/-- C6 (corrected): appending a sentence that only adds fired detectors never
decreases the indicator portion of the score; with an empty index snapshot
(no similarity contributions) the total score therefore never decreases. -/
theorem indicator_score_monotone (t s : String)
    (hLink : detLink (lowerChars t) = true → detLink (lowerChars (t ++ s)) = true)
    (hWords : detWords (lowerChars t) = true → detWords (lowerChars (t ++ s)) = true)
    (hAmount : detAmount (lowerChars t) = true → detAmount (lowerChars (t ++ s)) = true)
    (hAttach : detAttach (lowerChars t) = true → detAttach (lowerChars (t ++ s)) = true)
    (hGreet : detGreet (lowerChars t) = true → detGreet (lowerChars (t ++ s)) = true) :
    (analyzeVerdict t [] 5).score ≤ (analyzeVerdict (t ++ s) [] 5).score := by
  rw [analyzeVerdict_nil_score, analyzeVerdict_nil_score]
  exact indicatorScoreOf_mono _ _ _ _ _ _ _ _ _ _ hLink hWords hAmount hAttach hGreet

/-- Witness for C6 (corrected) : appending `" dear user"` to `"hi"`. -/
theorem indicator_score_monotone_witness :
    (analyzeVerdict "hi" [] 5).score ≤ (analyzeVerdict ("hi" ++ " dear user") [] 5).score :=
  indicator_score_monotone "hi" " dear user" (by decide) (by decide) (by decide) (by decide)
    (by decide)

/-- C6 counterexample: `"a b c"` fires no detector; appending `" dear user"`
fires exactly one more (the generic greeting) and removes none, yet the total
score drops from 3 to 2, because the appended words dilute the similarity with
the indexed example below the next floor step. -/
theorem score_monotonicity_counterexample :
    detLink (lowerChars "a b c") = false ∧ detWords (lowerChars "a b c") = false
    ∧ detAmount (lowerChars "a b c") = false ∧ detAttach (lowerChars "a b c") = false
    ∧ detGreet (lowerChars "a b c") = false
    ∧ detLink (lowerChars ("a b c" ++ " dear user")) = false
    ∧ detWords (lowerChars ("a b c" ++ " dear user")) = false
    ∧ detAmount (lowerChars ("a b c" ++ " dear user")) = false
    ∧ detAttach (lowerChars ("a b c" ++ " dear user")) = false
    ∧ detGreet (lowerChars ("a b c" ++ " dear user")) = true
    ∧ (analyzeVerdict ("a b c" ++ " dear user") [("E1", ⟨"a b", "c", "x"⟩)] 5).score
        < (analyzeVerdict "a b c" [("E1", ⟨"a b", "c", "x"⟩)] 5).score := by
  decide

lemma actionsOf_indicatorsOf :
    ∀ a b c d e : Bool,
      actionsOf (indicatorsOf a b c d e) = actionsSpecOf a b d e
      ∧ (actionsOf (indicatorsOf a b c d e) = ["No immediate danger detected; stay cautious."]
          ↔ (a || b || d || e) = false) := by decide

/-- C7 (corrected): the recommended actions are exactly one fixed advisory per
fired action-bearing indicator (link, suspicious wording, attachment, generic
greeting — amount-mention has none), in evaluation order; the generic
"stay cautious" advisory appears exactly when none of those four fired (an
amount-only input still gets the generic advisory). -/
theorem recommended_actions_spec (text : String) (idx : List (String × EmailExample)) :
    (analyzeVerdict text idx 5).actions
      = actionsSpecOf (detLink (lowerChars text)) (detWords (lowerChars text))
          (detAttach (lowerChars text)) (detGreet (lowerChars text))
    ∧ ((analyzeVerdict text idx 5).actions = ["No immediate danger detected; stay cautious."]
        ↔ (detLink (lowerChars text) || detWords (lowerChars text)
            || detAttach (lowerChars text) || detGreet (lowerChars text)) = false) :=
  actionsOf_indicatorsOf (detLink (lowerChars text)) (detWords (lowerChars text))
    (detAmount (lowerChars text)) (detAttach (lowerChars text)) (detGreet (lowerChars text))

/-- Witness for C7 (corrected) at the input `"hello"` (no detector fires). -/
theorem recommended_actions_spec_witness :
    (analyzeVerdict "hello" [] 5).actions = ["No immediate danger detected; stay cautious."] :=
  (recommended_actions_spec "hello" []).2.mpr (by decide)

/-- C7 counterexample: the input `"1234"` fires the amount indicator, yet the
actions list is the single generic advisory — so the generic advisory is not
emitted "exactly when no indicator fired". -/
theorem actions_amount_only_counterexample :
    (analyzeVerdict "1234" [] 5).indicators = ["Mentions amounts or unusual numbers"]
    ∧ (analyzeVerdict "1234" [] 5).actions = ["No immediate danger detected; stay cautious."] := by
  decide

lemma foldl_simStep (l : List (String × ℚ × EmailExample)) (acc : List (String × ℚ × String))
    (s : ℕ) :
    l.foldl simStep (acc, s) = (acc ++ l.filterMap keepFn, s + (l.map contribFn).sum) := by
  induction l generalizing acc s with
  | nil => simp
  | cons m t ih =>
    rw [List.foldl_cons]
    by_cases h : simThreshold < m.2.1
    · rw [show simStep (acc, s) m
          = (acc ++ [(m.1, m.2.1, m.2.2.indicator)], s + simContribution m.2.1) from by
        unfold simStep; rw [if_pos h], ih]
      simp [keepFn, contribFn, h, List.filterMap_cons, List.append_assoc, Nat.add_assoc]
    · rw [show simStep (acc, s) m = (acc, s) from by unfold simStep; rw [if_neg h], ih]
      simp [keepFn, contribFn, h, List.filterMap_cons]

lemma analyzeVerdict_similar (text : String) (idx : List (String × EmailExample)) :
    (analyzeVerdict text idx 5).similar
      = (((simsOf text idx).insertionSort simRel).take 5).filterMap keepFn := by
  show ((((simsOf text idx).insertionSort simRel).take 5).foldl simStep
    ([], indicatorScore text)).1 = _
  rw [foldl_simStep]
  simp

lemma analyzeVerdict_score (text : String) (idx : List (String × EmailExample)) :
    (analyzeVerdict text idx 5).score
      = indicatorScore text
        + ((((simsOf text idx).insertionSort simRel).take 5).map contribFn).sum := by
  show ((((simsOf text idx).insertionSort simRel).take 5).foldl simStep
    ([], indicatorScore text)).2 = _
  rw [foldl_simStep]

lemma mkRat_three_mul (q : ℚ) : mkRat (3 * q.num) q.den = 3 * q := by
  rw [Rat.mkRat_eq_div]
  push_cast
  rw [mul_div_assoc, Rat.num_div_den]

lemma ratFloor_eq_intFloor (q : ℚ) : Rat.floor q = ⌊q⌋ := by
  rw [Rat.floor_def, Rat.floor_def']

lemma simContribution_eq (q : ℚ) (hq : 0 ≤ q) : (simContribution q : ℤ) = ⌊q * 3⌋ := by
  unfold simContribution
  rw [mkRat_three_mul, ratFloor_eq_intFloor,
    Int.toNat_of_nonneg (Int.floor_nonneg.mpr (by positivity)), mul_comm]

lemma simThreshold_eq : simThreshold = 0.15 := by
  unfold simThreshold
  rw [Rat.mkRat_eq_div]
  norm_num

/-- C1: the similarity pass computes the similarity of the input with
`"subject body"` for every indexed example, sorts them descending by
similarity (stably), keeps the top 5, appends exactly the kept matches with
similarity strictly above the 0.15 threshold to the similar list, and adds
`floor(3 · sim)` to the score for each of them; matches at or below the
threshold neither appear nor contribute. -/
theorem similarity_pass_correct (text : String) (idx : List (String × EmailExample)) :
    (analyzeVerdict text idx 5).similar
      = (((simsOf text idx).insertionSort simRel).take 5).filterMap keepFn
    ∧ (analyzeVerdict text idx 5).score
      = indicatorScore text
        + ((((simsOf text idx).insertionSort simRel).take 5).map contribFn).sum
    ∧ List.Sorted simRel ((simsOf text idx).insertionSort simRel)
    ∧ ((simsOf text idx).insertionSort simRel).Perm (simsOf text idx)
    ∧ (∀ m ∈ (analyzeVerdict text idx 5).similar, simThreshold < m.2.1)
    ∧ simThreshold = 0.15
    ∧ ∀ q : ℚ, 0 ≤ q → (simContribution q : ℤ) = ⌊q * 3⌋ := by
  haveI : IsTotal (String × ℚ × EmailExample) simRel := ⟨fun x y => le_total y.2.1 x.2.1⟩
  haveI : IsTrans (String × ℚ × EmailExample) simRel := ⟨fun _ _ _ h1 h2 => le_trans h2 h1⟩
  refine ⟨analyzeVerdict_similar text idx, analyzeVerdict_score text idx,
    List.sorted_insertionSort simRel _, List.perm_insertionSort simRel _, ?_,
    simThreshold_eq, simContribution_eq⟩
  intro m hm
  rw [analyzeVerdict_similar] at hm
  obtain ⟨a, _, hk⟩ := List.mem_filterMap.mp hm
  by_cases hc : simThreshold < a.2.1
  · unfold keepFn at hk
    rw [if_pos hc] at hk
    obtain rfl := Option.some.inj hk
    exact hc
  · unfold keepFn at hk
    rw [if_neg hc] at hk
    exact absurd hk (by simp)

/-- Witness for C1 at a one-example index where the only match has
similarity 1 and is kept. -/
theorem similarity_pass_correct_witness :
    simThreshold < (1 : ℚ) ∧ (simContribution (1 : ℚ) : ℤ) = ⌊(1 : ℚ) * 3⌋ :=
  ⟨(similarity_pass_correct "a b" [("E1", ⟨"a", "b", "L"⟩)]).2.2.2.2.1
      ("E1", (1 : ℚ), "L") (by decide),
   (similarity_pass_correct "a b" [("E1", ⟨"a", "b", "L"⟩)]).2.2.2.2.2.2 1 (by decide)⟩

lemma contribSum_eq (l : List (String × ℚ × EmailExample)) :
    ((l.filterMap keepFn).map (fun m => simContribution m.2.1)).sum
      = (l.map contribFn).sum := by
  induction l with
  | nil => rfl
  | cons m t ih =>
    by_cases h : simThreshold < m.2.1
    · simp [keepFn, contribFn, h, List.filterMap_cons, ih]
    · simp [keepFn, contribFn, h, List.filterMap_cons, ih]

/-- C10: every match appearing in the similar list has similarity above the
0.15 threshold; the final score is the indicator score plus the
contributions `int(3·sim)` of exactly the listed matches; and a listed match
with similarity below 1/3 contributes 0 — it appears in the output while
adding nothing to the score. -/
theorem low_similarity_zero_contribution (text : String) (idx : List (String × EmailExample)) :
    (analyzeVerdict text idx 5).score
      = indicatorScore text
        + (((analyzeVerdict text idx 5).similar).map (fun m => simContribution m.2.1)).sum
    ∧ (∀ m ∈ (analyzeVerdict text idx 5).similar,
        simThreshold < m.2.1 ∧ (m.2.1 < mkRat 1 3 → simContribution m.2.1 = 0))
    ∧ (mkRat 1 3 : ℚ) = 1 / 3 ∧ simThreshold = 0.15 := by
  have hthird : (mkRat 1 3 : ℚ) = 1 / 3 := by
    rw [Rat.mkRat_eq_div]; norm_num
  refine ⟨?_, ?_, hthird, simThreshold_eq⟩
  · rw [analyzeVerdict_similar, contribSum_eq, analyzeVerdict_score]
  · intro m hm
    have hkept : simThreshold < m.2.1 := by
      rw [analyzeVerdict_similar] at hm
      obtain ⟨a, _, hk⟩ := List.mem_filterMap.mp hm
      by_cases hc : simThreshold < a.2.1
      · unfold keepFn at hk
        rw [if_pos hc] at hk
        obtain rfl := Option.some.inj hk
        exact hc
      · unfold keepFn at hk
        rw [if_neg hc] at hk
        exact absurd hk (by simp)
    refine ⟨hkept, fun hsmall => ?_⟩
    have hpos : (0 : ℚ) < m.2.1 := by
      have h15 : (0 : ℚ) < simThreshold := by rw [simThreshold_eq]; norm_num
      exact h15.trans hkept
    have hlt : (3 : ℚ) * m.2.1 < 1 := by
      rw [hthird] at hsmall
      linarith
    unfold simContribution
    rw [mkRat_three_mul, ratFloor_eq_intFloor,
      Int.floor_eq_zero_iff.mpr (Set.mem_Ico.mpr ⟨by positivity, hlt⟩)]
    rfl

/-- Witness for C10: input `"a"` against an example with tokens
`{a, b, c, d}` gives similarity 1/4 ∈ (0.15, 1/3): listed, contribution 0. -/
theorem low_similarity_zero_contribution_witness :
    simThreshold < mkRat 1 4 ∧ simContribution (mkRat 1 4) = 0 :=
  have h := (low_similarity_zero_contribution "a" [("E1", ⟨"a b", "c d", "L"⟩)]).2.1
    ("E1", mkRat 1 4, "L") (by decide)
  ⟨h.1, h.2 (by decide)⟩

/-- C4: the canonical phishing input against the seeded default index fires
the link and suspicious-wording detectors, does not fire the amount detector,
scores at least 5 (in fact 6), and lists a similar match to `E001` labelled
"Suspicious link". -/
theorem seeded_example_verdict :
    (analyzeVerdict "Your account has been suspended, click here to verify: http://evil.example"
        defaultIndex 5).indicators.contains "Contains external link(s)" = true
    ∧ (analyzeVerdict "Your account has been suspended, click here to verify: http://evil.example"
        defaultIndex 5).indicators.contains "Contains suspicious action words" = true
    ∧ (analyzeVerdict "Your account has been suspended, click here to verify: http://evil.example"
        defaultIndex 5).indicators.contains "Mentions amounts or unusual numbers" = false
    ∧ 5 ≤ (analyzeVerdict
        "Your account has been suspended, click here to verify: http://evil.example"
        defaultIndex 5).score
    ∧ ∃ s : ℚ, ("E001", s, "Suspicious link")
        ∈ (analyzeVerdict
            "Your account has been suspended, click here to verify: http://evil.example"
            defaultIndex 5).similar := by
  have hv : analyzeVerdict
      "Your account has been suspended, click here to verify: http://evil.example"
      defaultIndex 5
      = { indicators := ["Contains external link(s)", "Contains suspicious action words"]
          similar := [("E001", mkRat 9 17, "Suspicious link")]
          score := 6
          risk := "HIGH"
          actions := ["Do not click links. Inspect carefully.",
                      "Do not provide sensitive info. Verify sender."] } := by decide
  refine ⟨?_, ?_, ?_, ?_, ⟨mkRat 9 17, ?_⟩⟩ <;> rw [hv] <;> decide

lemma simple_similarity_div (a b : String) (ha : tokenSet a ≠ ∅) (hb : tokenSet b ≠ ∅) :
    simple_similarity a b
      = ((tokenSet a ∩ tokenSet b).card : ℚ) / ((tokenSet a ∪ tokenSet b).card : ℚ) := by
  unfold simple_similarity
  rw [if_neg (by tauto)]
  have hne : (tokenSet a ∪ tokenSet b).Nonempty := by
    obtain ⟨x, hx⟩ := Finset.nonempty_iff_ne_empty.mpr ha
    exact ⟨x, Finset.mem_union_left _ hx⟩
  have hmax : Nat.max 1 (tokenSet a ∪ tokenSet b).card = (tokenSet a ∪ tokenSet b).card :=
    Nat.max_eq_right (Finset.card_pos.mpr hne)
  rw [hmax, Rat.mkRat_eq_div]
  push_cast
  ring

/-- C5: `simple_similarity` is symmetric, always lies in `[0, 1]`, is 0 when
either token set is empty, is 1 when the two (non-empty) token sets coincide,
and otherwise is the Jaccard index of the two lower-cased token sets. -/
theorem simple_similarity_props (a b : String) :
    simple_similarity a b = simple_similarity b a
    ∧ 0 ≤ simple_similarity a b
    ∧ simple_similarity a b ≤ 1
    ∧ ((tokenSet a = ∅ ∨ tokenSet b = ∅) → simple_similarity a b = 0)
    ∧ (tokenSet a = tokenSet b → tokenSet a ≠ ∅ → simple_similarity a b = 1)
    ∧ (tokenSet a ≠ ∅ → tokenSet b ≠ ∅ →
        simple_similarity a b
          = ((tokenSet a ∩ tokenSet b).card : ℚ) / ((tokenSet a ∪ tokenSet b).card : ℚ)) := by
  refine ⟨?_, ?_, ?_, ?_, ?_, simple_similarity_div a b⟩
  · unfold simple_similarity
    by_cases h : tokenSet a = ∅ ∨ tokenSet b = ∅
    · rw [if_pos h, if_pos h.symm]
    · rw [if_neg h, if_neg (fun h2 => h h2.symm), Finset.inter_comm, Finset.union_comm]
  · unfold simple_similarity
    by_cases h : tokenSet a = ∅ ∨ tokenSet b = ∅
    · rw [if_pos h]
    · rw [if_neg h, Rat.mkRat_eq_div]
      push_cast
      positivity
  · by_cases h : tokenSet a = ∅ ∨ tokenSet b = ∅
    · unfold simple_similarity
      rw [if_pos h]
      norm_num
    · push_neg at h
      rw [simple_similarity_div a b h.1 h.2]
      apply div_le_one_of_le₀
      · exact_mod_cast
          Finset.card_le_card (Finset.inter_subset_left.trans Finset.subset_union_left)
      · positivity
  · intro h
    unfold simple_similarity
    rw [if_pos h]
  · intro heq hne
    rw [simple_similarity_div a b hne (heq ▸ hne), ← heq, Finset.inter_self, Finset.union_self]
    have hpos : 0 < ((tokenSet a).card : ℚ) := by
      exact_mod_cast Finset.card_pos.mpr (Finset.nonempty_iff_ne_empty.mpr hne)
    field_simp

/-- Witness for C5: equal non-empty token sets give 1; an empty side gives 0. -/
theorem simple_similarity_props_witness :
    simple_similarity "x y" "y x" = 1 ∧ simple_similarity "" "z" = 0 :=
  ⟨(simple_similarity_props "x y" "y x").2.2.2.2.1 (by decide) (by decide),
   (simple_similarity_props "" "z").2.2.2.1 (Or.inl (by decide))⟩

lemma emittedAnswers_cons_emit (h : List (String × String)) (evs : List GenEvent) :
    emittedAnswers (GenEvent.emit h :: evs)
      = ((h.getLast?).getD ("", "")).2 :: emittedAnswers evs := rfl

lemma emittedAnswers_cons_save (h : List (String × String)) (evs : List GenEvent) :
    emittedAnswers (GenEvent.save h :: evs) = emittedAnswers evs := rfl

lemma emittedAnswers_append (l₁ l₂ : List GenEvent) :
    emittedAnswers (l₁ ++ l₂) = emittedAnswers l₁ ++ emittedAnswers l₂ :=
  List.filterMap_append l₁ l₂ _

lemma savedHistories_cons_emit (h : List (String × String)) (evs : List GenEvent) :
    savedHistories (GenEvent.emit h :: evs) = savedHistories evs := rfl

lemma savedHistories_append (l₁ l₂ : List GenEvent) :
    savedHistories (l₁ ++ l₂) = savedHistories l₁ ++ savedHistories l₂ :=
  List.filterMap_append l₁ l₂ _

lemma emittedAnswers_streamSteps (base : List (String × String)) (q : String)
    (l : List Char) (t : String) :
    emittedAnswers (streamSteps base q l t) = pushStates t l := by
  induction l generalizing t with
  | nil => rfl
  | cons c cs ih =>
    rw [show streamSteps base q (c :: cs) t
        = GenEvent.emit (base ++ [(q, t.push c)]) :: streamSteps base q cs (t.push c) from rfl]
    rw [emittedAnswers_cons_emit, List.getLast?_concat, ih]
    rfl

lemma savedHistories_streamSteps (base : List (String × String)) (q : String)
    (l : List Char) (t : String) :
    savedHistories (streamSteps base q l t) = [] := by
  induction l generalizing t with
  | nil => rfl
  | cons c cs ih =>
    rw [show streamSteps base q (c :: cs) t
        = GenEvent.emit (base ++ [(q, t.push c)]) :: streamSteps base q cs (t.push c) from rfl]
    rw [savedHistories_cons_emit, ih]

lemma pushStates_chain_extends (t : String) (l : List Char) :
    List.Chain' (fun x y : String => x.data <+: y.data) (t :: pushStates t l) := by
  induction l generalizing t with
  | nil => exact List.chain'_singleton t
  | cons c cs ih =>
    exact List.Chain'.cons ⟨[c], (String.data_push t c).symm⟩ (ih (t.push c))

lemma pushStates_chain_lt (t : String) (l : List Char) :
    List.Chain' (fun x y : String => x.length < y.length) (t :: pushStates t l) := by
  induction l generalizing t with
  | nil => exact List.chain'_singleton t
  | cons c cs ih =>
    exact List.Chain'.cons (by rw [String.length_push]; omega) (ih (t.push c))

lemma pushStates_getLast (t : String) (l : List Char) :
    (t :: pushStates t l).getLast? = some (pushAll t l) := by
  induction l generalizing t with
  | nil => rfl
  | cons c cs ih =>
    rw [show pushStates t (c :: cs) = (t.push c) :: pushStates (t.push c) cs from rfl,
      List.getLast?_cons_cons]
    exact ih (t.push c)

lemma pushAll_data (t : String) (l : List Char) : (pushAll t l).data = t.data ++ l := by
  induction l generalizing t with
  | nil => simp [pushAll]
  | cons c cs ih =>
    rw [show pushAll t (c :: cs) = pushAll (t.push c) cs from rfl, ih, String.data_push]
    simp

lemma pushAll_empty (s : String) : pushAll "" s.data = s := by
  apply String.ext
  rw [pushAll_data]
  rfl

lemma emittedAnswers_queryGeneratorEvents (q : String) (raw : List RawItem)
    (idx : List (String × EmailExample)) :
    emittedAnswers (queryGeneratorEvents q raw idx)
      = ("" :: pushStates "" (analyze_email_local q idx 5).data)
        ++ [analyze_email_local q idx 5] := by
  unfold queryGeneratorEvents
  rw [emittedAnswers_cons_emit, emittedAnswers_append, emittedAnswers_streamSteps,
    List.getLast?_concat, emittedAnswers_cons_save, emittedAnswers_cons_emit,
    List.getLast?_concat]
  rfl

lemma savedHistories_queryGeneratorEvents (q : String) (raw : List RawItem)
    (idx : List (String × EmailExample)) :
    savedHistories (queryGeneratorEvents q raw idx)
      = [normalize_history raw ++ [(q, analyze_email_local q idx 5)]] := by
  unfold queryGeneratorEvents
  rw [savedHistories_cons_emit, savedHistories_append, savedHistories_streamSteps]
  rfl

lemma queryGeneratorEvents_split (q : String) (raw : List RawItem)
    (idx : List (String × EmailExample)) :
    queryGeneratorEvents q raw idx
      = ((GenEvent.emit (normalize_history raw ++ [(q, "")])
          :: streamSteps (normalize_history raw) q (analyze_email_local q idx 5).data "")
         ++ [GenEvent.save (normalize_history raw ++ [(q, analyze_email_local q idx 5)])])
        ++ [GenEvent.emit (normalize_history raw ++ [(q, analyze_email_local q idx 5)])] := by
  unfold queryGeneratorEvents
  simp

/-- C3 (corrected): for every query, starting history and index snapshot, the
emitted answers form a prefix chain; all emissions except the final one
strictly increase in length; the last emission carries exactly the full report,
which duplicates the last streamed state; persistence happens exactly once, of
the final conversation, and it happens after the last streamed emission but
immediately before (not after) the final duplicate emission. -/
theorem streaming_trace_spec (q : String) (raw : List RawItem)
    (idx : List (String × EmailExample)) :
    List.Chain' (fun x y : String => x.data <+: y.data)
      (emittedAnswers (queryGeneratorEvents q raw idx))
    ∧ List.Chain' (fun x y : String => x.length < y.length)
        (emittedAnswers (queryGeneratorEvents q raw idx)).dropLast
    ∧ (emittedAnswers (queryGeneratorEvents q raw idx)).getLast?
        = some (analyze_email_local q idx 5)
    ∧ savedHistories (queryGeneratorEvents q raw idx)
        = [normalize_history raw ++ [(q, analyze_email_local q idx 5)]]
    ∧ (queryGeneratorEvents q raw idx).getLast?
        = some (GenEvent.emit (normalize_history raw ++ [(q, analyze_email_local q idx 5)]))
    ∧ (queryGeneratorEvents q raw idx).dropLast.getLast?
        = some (GenEvent.save (normalize_history raw ++ [(q, analyze_email_local q idx 5)])) := by
  refine ⟨?_, ?_, ?_, savedHistories_queryGeneratorEvents q raw idx, ?_, ?_⟩
  · rw [emittedAnswers_queryGeneratorEvents]
    refine List.chain'_append.mpr ⟨pushStates_chain_extends "" _, by simp, ?_⟩
    intro x hx y hy
    rw [pushStates_getLast, pushAll_empty] at hx
    obtain rfl : x = analyze_email_local q idx 5 := by
      cases hx
      rfl
    obtain rfl : y = analyze_email_local q idx 5 := by
      cases hy
      rfl
    exact ⟨[], by simp⟩
  · rw [emittedAnswers_queryGeneratorEvents, List.dropLast_concat]
    exact pushStates_chain_lt "" _
  · rw [emittedAnswers_queryGeneratorEvents, List.getLast?_concat]
  · rw [queryGeneratorEvents_split, List.getLast?_concat]
  · rw [queryGeneratorEvents_split, List.dropLast_concat, List.getLast?_concat]

/-- C3 counterexample: at the concrete invocation `query_generator("x", [])`
with an empty index, the emitted answer sequence is not strictly increasing in
length (the final emission duplicates the last streamed one), and the save is
not after the final emission (the trace ends with an emit, not a save) — so
the claim as stated fails. -/
theorem streaming_counterexample :
    ¬ (List.Chain' (fun x y : String => x.length < y.length)
          (emittedAnswers (queryGeneratorEvents "x" [] []))
       ∧ (queryGeneratorEvents "x" [] []).getLast?
           = some (GenEvent.save [("x", analyze_email_local "x" [] 5)])) := by
  rintro ⟨hchain, -⟩
  rw [emittedAnswers_queryGeneratorEvents] at hchain
  obtain ⟨-, -, hrel⟩ := List.chain'_append.mp hchain
  have hmem : analyze_email_local "x" [] 5
      ∈ ("" :: pushStates "" (analyze_email_local "x" [] 5).data).getLast? := by
    rw [pushStates_getLast, pushAll_empty]
    rfl
  have h := hrel _ hmem (analyze_email_local "x" [] 5) rfl
  exact lt_irrefl _ h
